import Mathlib

-- ===========================================================================
-- Definitions: shallow embedding of the server game logic
-- ===========================================================================

/-!
Verification of the Bumper Balls Arena authoritative server engine.

The definitions below are a shallow embedding of the server-side game logic
(the bumper-balls game loop shipped in the repository README and wired into
the template server).  JavaScript numbers are modelled as exact rationals;
where the source computes a square root (Math.sqrt) the embedding takes the
square-root function as an explicit parameter so that every definition stays
computable.  A separate model with JS non-finite semantics (JsNum) is used
where the production of NaN and Infinity is itself the question.
-/

/-- Three-component vector, mirroring the Vector3D interface. -/
structure Vector3D where
  x : ℚ
  y : ℚ
  z : ℚ
deriving Repr, DecidableEq

/-- Movement input mirroring the MovementInput interface. -/
structure MovementInput where
  x : ℚ
  z : ℚ
  sprint : Bool
deriving Repr, DecidableEq

/-- Per-player state, mirroring the PlayerBall interface of the server logic.
Optional fields of the source become Option values. -/
structure PlayerBall where
  socketId : String
  name : String
  color : String
  position : Vector3D
  velocity : Vector3D
  rotation : Vector3D
  acceleration : Vector3D
  isEliminated : Bool
  eliminatedAt : Option ℚ
  stamina : ℚ
  isSprinting : Bool
  eliminations : ℕ
  survivalTime : ℚ
  lastInput : Option MovementInput
  lastHitBy : Option String
  lastHitTime : Option ℚ
deriving Repr, DecidableEq

/-- Game status, mirroring the status union of BumperBallsGameData. -/
inductive GameStatus where
  | countdown
  | playing
  | ended
deriving Repr, DecidableEq

/-- Game mode, mirroring the gameMode union of BumperBallsGameData. -/
inductive GameMode where
  | classic
  | shrinking
  | timed
deriving Repr, DecidableEq

/-- Per-room game state, mirroring BumperBallsGameData. -/
structure BumperBallsGameData where
  status : GameStatus
  countdownValue : Option ℤ
  startTime : ℚ
  gameMode : GameMode
  players : List PlayerBall
  alivePlayers : List String
  eliminationOrder : List String
  winnerId : Option String
  lastTickTime : ℚ
deriving Repr, DecidableEq

-- Constants from the CONSTANTS object of the server logic.

def BALL_RADIUS : ℚ := 1/2
def MAX_VELOCITY : ℚ := 30
def PLATFORM_RADIUS : ℚ := 10
def FALL_THRESHOLD : ℚ := -5
def MAX_STAMINA : ℚ := 100
def STAMINA_REGEN : ℚ := 15
def STAMINA_DRAIN : ℚ := 45
def MIN_SPRINT_STAMINA : ℚ := 10

/-- Exact rational square root used to instantiate the square-root parameter
at concrete inputs whose value is a ratio of perfect squares (rational Rat
values are stored in lowest terms, so numerator and denominator square roots
combine exactly there).  Negative inputs map to 0. -/
def ratSqrt (q : ℚ) : ℚ :=
  if q ≤ 0 then 0 else (Nat.sqrt q.num.toNat : ℚ) / (Nat.sqrt q.den : ℚ)

/-- The drain guard of updateStamina.  The source tests
`player.lastInput?.x !== 0 || player.lastInput?.z !== 0`; with optional
chaining a missing lastInput yields undefined, and undefined !== 0 is true,
so an absent input counts as moving. -/
def staminaDrainMoving (p : PlayerBall) : Bool :=
  match p.lastInput with
  | none => true
  | some i => decide (i.x ≠ 0) || decide (i.z ≠ 0)

/-- The sprint request of the last input; `player.lastInput?.sprint` is
undefined (falsy) when no input has been received. -/
def inputSprint (p : PlayerBall) : Bool :=
  match p.lastInput with
  | none => false
  | some i => i.sprint

/-- Embedding of updateStamina: drain while sprinting and moving (floor at 0,
forcing the sprint flag off), otherwise regenerate (cap at MAX_STAMINA);
finally recompute the sprint flag from the requested sprint and the minimum
sprint stamina threshold. -/
def updateStamina (p : PlayerBall) (deltaTime : ℚ) : PlayerBall :=
  let p1 :=
    if p.isSprinting && staminaDrainMoving p then
      let pd := { p with stamina := p.stamina - STAMINA_DRAIN * deltaTime }
      if pd.stamina < 0 then { pd with stamina := 0, isSprinting := false } else pd
    else
      let pr := { p with stamina := p.stamina + STAMINA_REGEN * deltaTime }
      if pr.stamina > MAX_STAMINA then { pr with stamina := MAX_STAMINA } else pr
  if inputSprint p1 && decide (p1.stamina ≥ MIN_SPRINT_STAMINA) then
    { p1 with isSprinting := true }
  else
    { p1 with isSprinting := false }

/-- A sample player used by concrete witnesses. -/
def samplePlayer : PlayerBall :=
  { socketId := "p1"
    name := "Alice"
    color := "#FF4444"
    position := { x := 0, y := 1, z := 0 }
    velocity := { x := 0, y := 0, z := 0 }
    rotation := { x := 0, y := 0, z := 0 }
    acceleration := { x := 0, y := 0, z := 0 }
    isEliminated := false
    eliminatedAt := none
    stamina := 100
    isSprinting := false
    eliminations := 0
    survivalTime := 0
    lastInput := some { x := 0, z := 0, sprint := false }
    lastHitBy := none
    lastHitTime := none }

/-- Positional separation of the first colliding player:
`p1.position -= normal * overlap * 0.5` with
`overlap = BALL_RADIUS * 2 - distance`. -/
def sepPlayer1 (q : PlayerBall) (nx nz distance : ℚ) : PlayerBall :=
  { q with position := { q.position with
      x := q.position.x - nx * (BALL_RADIUS * 2 - distance) * (1/2),
      z := q.position.z - nz * (BALL_RADIUS * 2 - distance) * (1/2) } }

/-- Positional separation of the second colliding player:
`p2.position += normal * overlap * 0.5`. -/
def sepPlayer2 (q : PlayerBall) (nx nz distance : ℚ) : PlayerBall :=
  { q with position := { q.position with
      x := q.position.x + nx * (BALL_RADIUS * 2 - distance) * (1/2),
      z := q.position.z + nz * (BALL_RADIUS * 2 - distance) * (1/2) } }

/-- Planar speed of a player, `Math.sqrt(v.x ** 2 + v.z ** 2)`. -/
def collSpeed (sq : ℚ → ℚ) (q : PlayerBall) : ℚ :=
  sq (q.velocity.x ^ 2 + q.velocity.z ^ 2)

/-- Sprint grants an effective mass of 1.5, otherwise 1.0. -/
def collMass (q : PlayerBall) : ℚ :=
  if q.isSprinting then 3/2 else 1

/-- Relative velocity along the collision normal,
`(p2.v - p1.v) . (nx, nz)`. -/
def collVelAlongNormal (q1 q2 : PlayerBall) (nx nz : ℚ) : ℚ :=
  (q2.velocity.x - q1.velocity.x) * nx + (q2.velocity.z - q1.velocity.z) * nz

/-- Impulse scalar `j = -(1 + restitution) * velAlongNormal / totalMass`
with restitution 10.5. -/
def collJ (q1 q2 : PlayerBall) (nx nz : ℚ) : ℚ :=
  -(1 + 21/2) * collVelAlongNormal q1 q2 nx nz / (collMass q1 + collMass q2)

/-- Speed-based knockback multiplier
`1.0 + (speed / MAX_VELOCITY) * 9.0`. -/
def collSpeedFactor (sq : ℚ → ℚ) (q : PlayerBall) : ℚ :=
  1 + collSpeed sq q / MAX_VELOCITY * 9

/-- Knockback received by player 1: `j * mass2 * speedFactor2`. -/
def collImpulse1 (sq : ℚ → ℚ) (q1 q2 : PlayerBall) (nx nz : ℚ) : ℚ :=
  collJ q1 q2 nx nz * collMass q2 * collSpeedFactor sq q2

/-- Knockback received by player 2: `j * mass1 * speedFactor1`. -/
def collImpulse2 (sq : ℚ → ℚ) (q1 q2 : PlayerBall) (nx nz : ℚ) : ℚ :=
  collJ q1 q2 nx nz * collMass q1 * collSpeedFactor sq q1

/-- `p1.velocity -= impulse1 * normal`. -/
def impulseApply1 (sq : ℚ → ℚ) (q1 q2 : PlayerBall) (nx nz : ℚ) : PlayerBall :=
  { q1 with velocity := { q1.velocity with
      x := q1.velocity.x - collImpulse1 sq q1 q2 nx nz * nx,
      z := q1.velocity.z - collImpulse1 sq q1 q2 nx nz * nz } }

/-- `p2.velocity += impulse2 * normal`. -/
def impulseApply2 (sq : ℚ → ℚ) (q1 q2 : PlayerBall) (nx nz : ℚ) : PlayerBall :=
  { q2 with velocity := { q2.velocity with
      x := q2.velocity.x + collImpulse2 sq q1 q2 nx nz * nx,
      z := q2.velocity.z + collImpulse2 sq q1 q2 nx nz * nz } }

/-- `p1ImpulseMagnitude = Math.sqrt((impulse1*nx) ** 2 + (impulse1*nz) ** 2)`. -/
def collMag1 (sq : ℚ → ℚ) (q1 q2 : PlayerBall) (nx nz : ℚ) : ℚ :=
  sq ((collImpulse1 sq q1 q2 nx nz * nx) ^ 2 + (collImpulse1 sq q1 q2 nx nz * nz) ^ 2)

/-- `p2ImpulseMagnitude = Math.sqrt((impulse2*nx) ** 2 + (impulse2*nz) ** 2)`. -/
def collMag2 (sq : ℚ → ℚ) (q1 q2 : PlayerBall) (nx nz : ℚ) : ℚ :=
  sq ((collImpulse2 sq q1 q2 nx nz * nx) ^ 2 + (collImpulse2 sq q1 q2 nx nz * nz) ^ 2)

/-- `scale = minImpulse / (p1ImpulseMagnitude || 1)`; the JS fallback maps a
zero magnitude to 1. -/
def collScale1 (sq : ℚ → ℚ) (q1 q2 : PlayerBall) (nx nz : ℚ) : ℚ :=
  24 / (if collMag1 sq q1 q2 nx nz = 0 then 1 else collMag1 sq q1 q2 nx nz)

/-- `scale = minImpulse / (p2ImpulseMagnitude || 1)`. -/
def collScale2 (sq : ℚ → ℚ) (q1 q2 : PlayerBall) (nx nz : ℚ) : ℚ :=
  24 / (if collMag2 sq q1 q2 nx nz = 0 then 1 else collMag2 sq q1 q2 nx nz)

/-- Minimum-knockback step for player 1: when the applied impulse magnitude is
under minImpulse = 24, subtract a further `impulse1 * normal * scale` from the
(already updated) velocity of player 1 (`qv`). -/
def minRescale1 (sq : ℚ → ℚ) (q1 q2 : PlayerBall) (nx nz : ℚ) (qv : PlayerBall) :
    PlayerBall :=
  if collMag1 sq q1 q2 nx nz < 24 then
    { qv with velocity := { qv.velocity with
        x := qv.velocity.x - collImpulse1 sq q1 q2 nx nz * nx * collScale1 sq q1 q2 nx nz,
        z := qv.velocity.z - collImpulse1 sq q1 q2 nx nz * nz * collScale1 sq q1 q2 nx nz } }
  else qv

/-- Minimum-knockback step for player 2 (additive direction). -/
def minRescale2 (sq : ℚ → ℚ) (q1 q2 : PlayerBall) (nx nz : ℚ) (qv : PlayerBall) :
    PlayerBall :=
  if collMag2 sq q1 q2 nx nz < 24 then
    { qv with velocity := { qv.velocity with
        x := qv.velocity.x + collImpulse2 sq q1 q2 nx nz * nx * collScale2 sq q1 q2 nx nz,
        z := qv.velocity.z + collImpulse2 sq q1 q2 nx nz * nz * collScale2 sq q1 q2 nx nz } }
  else qv

/-- Body of resolveCollision after the collision normal has been formed.
The square-root function of the runtime (Math.sqrt) is passed explicitly as
`sq`.  Mirrors the source statement by statement: positional separation,
the separating-pair early return, the super-elastic impulse with per-player
speed factors and sprint masses, the minimum-knockback rescale, and last-hit
credit (the faster player is credited; on a speed tie the source's else
branch marks player 1 as hit by player 2). -/
def resolveCollisionCore (sq : ℚ → ℚ) (now : ℚ) (q1 q2 : PlayerBall)
    (nx nz distance : ℚ) : PlayerBall × PlayerBall :=
  let q1s := sepPlayer1 q1 nx nz distance
  let q2s := sepPlayer2 q2 nx nz distance
  if collVelAlongNormal q1s q2s nx nz > 0 then (q1s, q2s)
  else
    let q1m := minRescale1 sq q1s q2s nx nz (impulseApply1 sq q1s q2s nx nz)
    let q2m := minRescale2 sq q1s q2s nx nz (impulseApply2 sq q1s q2s nx nz)
    if collSpeed sq q1s > collSpeed sq q2s then
      (q1m, { q2m with lastHitBy := some q1s.socketId, lastHitTime := some now })
    else
      ({ q1m with lastHitBy := some q2s.socketId, lastHitTime := some now }, q2m)

/-- Embedding of resolveCollision: normalize the collision normal from the
separation vector and hand off to the body.  In the rational model division
by a zero distance is total (and equal to zero); the JS NaN behaviour at a
zero distance is analysed separately in the JsNum model below. -/
def resolveCollision (sq : ℚ → ℚ) (now : ℚ) (p1 p2 : PlayerBall)
    (dx dz distance : ℚ) : PlayerBall × PlayerBall :=
  resolveCollisionCore sq now p1 p2 (dx / distance) (dz / distance) distance

attribute [ext] Vector3D MovementInput PlayerBall

/-- Attacker for the concrete bump scenario: planar velocity (1, 0). -/
def bumpP1 : PlayerBall :=
  { samplePlayer with
    socketId := "A"
    name := "Attacker"
    velocity := { x := 1, y := 0, z := 0 } }

/-- Victim for the concrete bump scenario: at planar distance 4/5, at rest. -/
def bumpP2 : PlayerBall :=
  { samplePlayer with
    socketId := "B"
    name := "Victim"
    position := { x := 4/5, y := 1, z := 0 } }

/-- JS number model tracking finiteness: `none` stands for a non-finite
value (NaN or an infinity), `some q` for the finite value q.  Ordered
comparisons against `none` are false, as they are for NaN in JS; at the
coincident-centre input analysed below the only non-finite value that
arises is NaN (from 0/0), so the collapse is exact there. -/
abbrev JsNum := Option ℚ

/-- JS addition: non-finite operands poison the result. -/
def jadd : JsNum → JsNum → JsNum
  | some a, some b => some (a + b)
  | _, _ => none

/-- JS subtraction. -/
def jsub : JsNum → JsNum → JsNum
  | some a, some b => some (a - b)
  | _, _ => none

/-- JS multiplication. -/
def jmul : JsNum → JsNum → JsNum
  | some a, some b => some (a * b)
  | _, _ => none

/-- JS division: a zero divisor yields a non-finite value (0/0 is NaN,
x/0 is an infinity). -/
def jdiv : JsNum → JsNum → JsNum
  | some a, some b => if b = 0 then none else some (a / b)
  | _, _ => none

/-- JS `<`: false when either side is NaN. -/
def jlt : JsNum → JsNum → Bool
  | some a, some b => decide (a < b)
  | _, _ => false

/-- JS `>`: false when either side is NaN. -/
def jgt : JsNum → JsNum → Bool
  | some a, some b => decide (b < a)
  | _, _ => false

/-- JS Math.sqrt: NaN on NaN or negative input, otherwise the square root
(supplied by the exact `sq` parameter). -/
def jsqrt (sq : ℚ → ℚ) : JsNum → JsNum
  | some a => if a < 0 then none else some (sq a)
  | none => none

/-- The JS truthiness fallback `m || 1`: 0 and NaN are falsy. -/
def jfallback1 : JsNum → JsNum
  | some a => if a = 0 then some 1 else some a
  | none => some 1

/-- Vector with JS-number components. -/
structure Vector3DJs where
  x : JsNum
  y : JsNum
  z : JsNum
deriving Repr, DecidableEq

/-- Player state restricted to the fields resolveCollision reads or
writes, with JS-number kinematics. -/
structure PlayerBallJs where
  socketId : String
  position : Vector3DJs
  velocity : Vector3DJs
  isSprinting : Bool
  lastHitBy : Option String
  lastHitTime : Option ℚ
deriving Repr, DecidableEq

/-- Embedding of resolveCollision over the JS number model, statement by
statement from the source; `** 2` is written as self-multiplication. -/
def resolveCollisionJs (sq : ℚ → ℚ) (now : ℚ) (p1 p2 : PlayerBallJs)
    (dx dz distance : JsNum) : PlayerBallJs × PlayerBallJs :=
  let nx := jdiv dx distance
  let nz := jdiv dz distance
  let overlap := jsub (some (BALL_RADIUS * 2)) distance
  let q1 := { p1 with position := { p1.position with
      x := jsub p1.position.x (jmul (jmul nx overlap) (some (1/2))),
      z := jsub p1.position.z (jmul (jmul nz overlap) (some (1/2))) } }
  let q2 := { p2 with position := { p2.position with
      x := jadd p2.position.x (jmul (jmul nx overlap) (some (1/2))),
      z := jadd p2.position.z (jmul (jmul nz overlap) (some (1/2))) } }
  let speed1 := jsqrt sq
    (jadd (jmul q1.velocity.x q1.velocity.x) (jmul q1.velocity.z q1.velocity.z))
  let speed2 := jsqrt sq
    (jadd (jmul q2.velocity.x q2.velocity.x) (jmul q2.velocity.z q2.velocity.z))
  let mass1 : JsNum := some (if q1.isSprinting then 3/2 else 1)
  let mass2 : JsNum := some (if q2.isSprinting then 3/2 else 1)
  let relVelX := jsub q2.velocity.x q1.velocity.x
  let relVelZ := jsub q2.velocity.z q1.velocity.z
  let velAlongNormal := jadd (jmul relVelX nx) (jmul relVelZ nz)
  if jgt velAlongNormal (some 0) then (q1, q2)
  else
    let totalMass := jadd mass1 mass2
    let j := jdiv (jmul (some (-(1 + 21/2))) velAlongNormal) totalMass
    let speedFactor1 := jadd (some 1) (jmul (jdiv speed1 (some MAX_VELOCITY)) (some 9))
    let speedFactor2 := jadd (some 1) (jmul (jdiv speed2 (some MAX_VELOCITY)) (some 9))
    let impulse1 := jmul (jmul j mass2) speedFactor2
    let impulse2 := jmul (jmul j mass1) speedFactor1
    let q1 := { q1 with velocity := { q1.velocity with
        x := jsub q1.velocity.x (jmul impulse1 nx),
        z := jsub q1.velocity.z (jmul impulse1 nz) } }
    let q2 := { q2 with velocity := { q2.velocity with
        x := jadd q2.velocity.x (jmul impulse2 nx),
        z := jadd q2.velocity.z (jmul impulse2 nz) } }
    let p1ImpulseMagnitude := jsqrt sq
      (jadd (jmul (jmul impulse1 nx) (jmul impulse1 nx))
        (jmul (jmul impulse1 nz) (jmul impulse1 nz)))
    let p2ImpulseMagnitude := jsqrt sq
      (jadd (jmul (jmul impulse2 nx) (jmul impulse2 nx))
        (jmul (jmul impulse2 nz) (jmul impulse2 nz)))
    let q1 :=
      if jlt p1ImpulseMagnitude (some 24) then
        let scale := jdiv (some 24) (jfallback1 p1ImpulseMagnitude)
        { q1 with velocity := { q1.velocity with
            x := jsub q1.velocity.x (jmul (jmul impulse1 nx) scale),
            z := jsub q1.velocity.z (jmul (jmul impulse1 nz) scale) } }
      else q1
    let q2 :=
      if jlt p2ImpulseMagnitude (some 24) then
        let scale := jdiv (some 24) (jfallback1 p2ImpulseMagnitude)
        { q2 with velocity := { q2.velocity with
            x := jadd q2.velocity.x (jmul (jmul impulse2 nx) scale),
            z := jadd q2.velocity.z (jmul (jmul impulse2 nz) scale) } }
      else q2
    if jgt speed1 speed2 then
      (q1, { q2 with lastHitBy := some q1.socketId, lastHitTime := some now })
    else
      ({ q1 with lastHitBy := some q2.socketId, lastHitTime := some now }, q2)

/-- The pairwise step of checkCollisions for one pair over the JS number
model: separation vector, planar distance via Math.sqrt, overlap test
against BALL_RADIUS * 2, and the call into resolveCollision. -/
def checkCollisionPairJs (sq : ℚ → ℚ) (now : ℚ) (p1 p2 : PlayerBallJs) :
    PlayerBallJs × PlayerBallJs :=
  let dx := jsub p2.position.x p1.position.x
  let dz := jsub p2.position.z p1.position.z
  let distance := jsqrt sq (jadd (jmul dx dx) (jmul dz dz))
  if jlt distance (some (BALL_RADIUS * 2)) then
    resolveCollisionJs sq now p1 p2 dx dz distance
  else (p1, p2)

/-- A player of the JS model standing at the spawn-height origin at rest. -/
def coincidentPlayer (id : String) : PlayerBallJs :=
  { socketId := id
    position := { x := some 0, y := some 1, z := some 0 }
    velocity := { x := some 0, y := some 0, z := some 0 }
    isSprinting := false
    lastHitBy := none
    lastHitTime := none }

/-- Events emitted by the embedded server logic; each constructor carries the
payload fields the claims refer to. -/
inductive GameEvent where
  | playerEliminated (socketId : String) (remainingPlayers : ℕ)
  | gameEnd (winnerId : String)
  | errorTo (socketId : String) (message : String)
  | lobbyGameEnded
deriving Repr, DecidableEq

instance : Inhabited PlayerBall := ⟨samplePlayer⟩

/-- Credit step of eliminatePlayer: when the victim carries a lastHitBy and a
lastHitTime within the 3000 ms window, the first matching attacker that is
still alive gets one elimination added.  `now` stands for the Date.now()
calls of the source. -/
def creditAttacker (hitBy : Option String) (hitTime : Option ℚ) (now : ℚ)
    (players : List PlayerBall) : List PlayerBall :=
  match hitBy, hitTime with
  | some hb, some ht =>
    if now - ht < 3000 then
      match players.findIdx? (fun p => p.socketId == hb) with
      | some k =>
        match players[k]? with
        | some attacker =>
          if attacker.isEliminated then players
          else players.set k { attacker with eliminations := attacker.eliminations + 1 }
        | none => players
      | none => players
    else players
  | _, _ => players

/-- Embedding of eliminatePlayer for the player at index i: mark eliminated
with a timestamp, credit the attacker, append to eliminationOrder, filter the
id out of alivePlayers, and emit the player-eliminated notification. -/
def eliminatePlayer (now : ℚ) (i : ℕ) (gd : BumperBallsGameData) :
    BumperBallsGameData × List GameEvent :=
  match gd.players[i]? with
  | none => (gd, [])
  | some player =>
    let ps1 := gd.players.set i { player with isEliminated := true, eliminatedAt := some now }
    let ps2 := creditAttacker player.lastHitBy player.lastHitTime now ps1
    let alive2 := gd.alivePlayers.filter (fun id => id != player.socketId)
    ({ gd with players := ps2,
               eliminationOrder := gd.eliminationOrder ++ [player.socketId],
               alivePlayers := alive2 },
     [GameEvent.playerEliminated player.socketId alive2.length])

/-- One iteration of the checkEliminations loop for the player at index i:
skip eliminated players; otherwise eliminate on planar distance beyond the
platform radius (and skip the fall check, the continue of the source) or on
falling below the fall threshold. -/
def checkElimStep (sq : ℚ → ℚ) (now : ℚ) (acc : BumperBallsGameData × List GameEvent)
    (i : ℕ) : BumperBallsGameData × List GameEvent :=
  match acc.1.players[i]? with
  | none => acc
  | some player =>
    if player.isEliminated then acc
    else
      if sq (player.position.x ^ 2 + player.position.z ^ 2) > PLATFORM_RADIUS then
        ((eliminatePlayer now i acc.1).1, acc.2 ++ (eliminatePlayer now i acc.1).2)
      else if player.position.y < FALL_THRESHOLD then
        ((eliminatePlayer now i acc.1).1, acc.2 ++ (eliminatePlayer now i acc.1).2)
      else acc

/-- Embedding of checkEliminations: iterate the per-player check over the
roster in order. -/
def checkEliminations (sq : ℚ → ℚ) (now : ℚ) (gd : BumperBallsGameData) :
    BumperBallsGameData × List GameEvent :=
  (List.range gd.players.length).foldl (checkElimStep sq now) (gd, [])

/-- Embedding of endGame restricted to the session state and the emitted
game-end notification: set status to ended, record the winner, emit once.
Timer teardown, the lobby score increment and the placement table of the
source are side effects outside the embedded state. -/
def endGame (gd : BumperBallsGameData) (winnerId : String) :
    BumperBallsGameData × List GameEvent :=
  ({ gd with status := GameStatus.ended, winnerId := some winnerId },
   [GameEvent.gameEnd winnerId])

/-- Stable insertion used to model the JS stable `sort((a, b) =>
b.eliminations - a.eliminations)`: a player moves ahead of the first entry
whose count does not exceed its own, so ties keep roster order. -/
def insertByElims (p : PlayerBall) : List PlayerBall → List PlayerBall
  | [] => [p]
  | q :: qs => if q.eliminations ≤ p.eliminations then p :: q :: qs else q :: insertByElims p qs

/-- Roster sorted by eliminations, descending and stable. -/
def sortByElimsDesc (l : List PlayerBall) : List PlayerBall :=
  l.foldr insertByElims []

/-- Embedding of checkVictoryCondition.  The three conditions of the source
are independent if statements with no status re-check between them, so a
later condition still fires after an earlier endGame call in the same
invocation; the state is threaded exactly as the in-place mutation does it. -/
def checkVictoryCondition (now : ℚ) (gd0 : BumperBallsGameData) :
    BumperBallsGameData × List GameEvent :=
  if gd0.status ≠ GameStatus.playing then (gd0, [])
  else
    let r1 := if gd0.alivePlayers.length = 1
      then endGame gd0 gd0.alivePlayers.headI else (gd0, [])
    let gd1 := r1.1
    let r2 := if gd1.alivePlayers.length = 0
      then endGame gd1 (gd1.eliminationOrder.getLastD "") else (gd1, [])
    let gd2 := r2.1
    let r3 :=
      if gd2.gameMode = GameMode.timed then
        if (now - gd2.startTime) / 1000 ≥ 180 then
          endGame gd2 (sortByElimsDesc gd2.players).headI.socketId
        else (gd2, [])
      else (gd2, [])
    (r3.1, r1.2 ++ r2.2 ++ r3.2)

/-- Sole survivor in the C7 scenario. -/
def survivorA : PlayerBall :=
  { samplePlayer with socketId := "A" }

/-- Already-eliminated player with the higher elimination count in the C7
scenario. -/
def eliminatedB : PlayerBall :=
  { samplePlayer with
    socketId := "B"
    isEliminated := true
    eliminations := 2 }

/-- Timed-mode session state in which the one-survivor condition and the
time-expiry condition hold simultaneously. -/
def gdTimedOneSurvivor : BumperBallsGameData :=
  { status := GameStatus.playing
    countdownValue := none
    startTime := 0
    gameMode := GameMode.timed
    players := [survivorA, eliminatedB]
    alivePlayers := ["A"]
    eliminationOrder := ["B"]
    winnerId := none
    lastTickTime := 0 }

/-- Shape of a player object in a sanitized snapshot: exactly the fields the
sanitizer copies.  There is no acceleration, lastInput, lastHitBy or
lastHitTime field in this shape. -/
structure SanitizedPlayer where
  socketId : String
  name : String
  color : String
  position : Vector3D
  velocity : Vector3D
  rotation : Vector3D
  isEliminated : Bool
  stamina : ℚ
  isSprinting : Bool
  eliminations : ℕ
  survivalTime : ℚ
deriving Repr, DecidableEq

/-- Shape of a sanitized snapshot.  The source builds it as
`{...gameData, players: ...}`, so every top-level field of the game data is
carried over - including the server-only lastTickTime. -/
structure SanitizedGameData where
  status : GameStatus
  countdownValue : Option ℤ
  startTime : ℚ
  gameMode : GameMode
  players : List SanitizedPlayer
  alivePlayers : List String
  eliminationOrder : List String
  winnerId : Option String
  lastTickTime : ℚ
deriving Repr, DecidableEq

/-- Per-player projection of sanitizeGameData: the explicit field list of the
source map. -/
def sanitizePlayer (p : PlayerBall) : SanitizedPlayer :=
  { socketId := p.socketId
    name := p.name
    color := p.color
    position := p.position
    velocity := p.velocity
    rotation := p.rotation
    isEliminated := p.isEliminated
    stamina := p.stamina
    isSprinting := p.isSprinting
    eliminations := p.eliminations
    survivalTime := p.survivalTime }

/-- Embedding of sanitizeGameData: spread of the game data with the players
array rebuilt through sanitizePlayer. -/
def sanitizeGameData (gd : BumperBallsGameData) : SanitizedGameData :=
  { status := gd.status
    countdownValue := gd.countdownValue
    startTime := gd.startTime
    gameMode := gd.gameMode
    players := gd.players.map sanitizePlayer
    alivePlayers := gd.alivePlayers
    eliminationOrder := gd.eliminationOrder
    winnerId := gd.winnerId
    lastTickTime := gd.lastTickTime }

/-- Session state with a distinctive server-only lastTickTime, used to show
the sanitizer leaking it. -/
def gdWithTickTime : BumperBallsGameData :=
  { gdTimedOneSurvivor with lastTickTime := 12345 }

/-- The activeGames registry lookup, `activeGames.get(roomCode)`. -/
def lookupGame (roomCode : String) (games : List (String × BumperBallsGameData)) :
    Option BumperBallsGameData :=
  match games.find? (fun e => e.1 == roomCode) with
  | some e => some e.2
  | none => none

/-- In-place mutation of the registry entry for a room. -/
def setGame (roomCode : String) (gd : BumperBallsGameData)
    (games : List (String × BumperBallsGameData)) :
    List (String × BumperBallsGameData) :=
  games.map (fun e => if e.1 == roomCode then (e.1, gd) else e)

/-- Embedding of the bumper:move handler: missing game, unknown player and
eliminated player are silent no-ops; otherwise only the found player's
lastInput is overwritten. -/
def handleBumperMove (senderId roomCode : String) (movement : MovementInput)
    (games : List (String × BumperBallsGameData)) :
    List (String × BumperBallsGameData) :=
  match lookupGame roomCode games with
  | none => games
  | some gd =>
    match gd.players.findIdx? (fun p => p.socketId == senderId) with
    | none => games
    | some k =>
      match gd.players[k]? with
      | none => games
      | some player =>
        if player.isEliminated then games
        else
          setGame roomCode
            { gd with players := gd.players.set k { player with lastInput := some movement } }
            games

/-- Lobby state as the template server stores it. -/
inductive LobbyState where
  | lobbyWaiting
  | playing
  | gameEnded
deriving Repr, DecidableEq

/-- Lobby record restricted to the fields the game:end handlers read or
write; gameData presence is tracked as a flag. -/
structure Lobby where
  hostId : String
  lobbyState : LobbyState
  hasGameData : Bool
deriving Repr, DecidableEq

/-- Embedding of the bumper game:end handler of setupBumperBallsHandlers:
looks up the game and force-ends it with the eliminations leader as winner.
The source has no host verification (its comment reads
`TODO: Verify socket is host`), so the sender identity is never consulted. -/
def handleGameEndBumper (_senderId roomCode : String)
    (games : List (String × BumperBallsGameData)) :
    List (String × BumperBallsGameData) × List GameEvent :=
  match lookupGame roomCode games with
  | none => (games, [])
  | some gd =>
    (setGame roomCode (endGame gd (sortByElimsDesc gd.players).headI.socketId).1 games,
      (endGame gd (sortByElimsDesc gd.players).headI.socketId).2)

/-- Embedding of the template server game:end handler: missing lobby is a
no-op; a non-host sender only receives an error notification; a host request
sets the lobby state to GAME_ENDED, clears its game data and broadcasts. -/
def handleGameEndLobby (senderId roomCode : String) (lobbies : List (String × Lobby)) :
    List (String × Lobby) × List GameEvent :=
  match lobbies.find? (fun e => e.1 == roomCode) with
  | none => (lobbies, [])
  | some e =>
    if e.2.hostId ≠ senderId then
      (lobbies, [GameEvent.errorTo senderId "Only host can end the game"])
    else
      (lobbies.map (fun f =>
          if f.1 == roomCode then
            (f.1, { f.2 with lobbyState := LobbyState.gameEnded, hasGameData := false })
          else f),
        [GameEvent.lobbyGameEnded])

/-- Combined effect of one game:end message: both registered handlers run,
the bumper one (registered first during connection setup) and then the
lobby one. -/
def handleGameEnd (senderId roomCode : String)
    (games : List (String × BumperBallsGameData)) (lobbies : List (String × Lobby)) :
    List (String × BumperBallsGameData) × List (String × Lobby) × List GameEvent :=
  ((handleGameEndBumper senderId roomCode games).1,
    (handleGameEndLobby senderId roomCode lobbies).1,
    (handleGameEndBumper senderId roomCode games).2
      ++ (handleGameEndLobby senderId roomCode lobbies).2)

/-- Alive player with the highest elimination count in the game:end
scenario. -/
def leaderB : PlayerBall :=
  { samplePlayer with
    socketId := "B"
    eliminations := 2 }

/-- Running classic session used for the game:end scenario. -/
def gdRunning : BumperBallsGameData :=
  { status := GameStatus.playing
    countdownValue := none
    startTime := 0
    gameMode := GameMode.classic
    players := [survivorA, leaderB]
    alivePlayers := ["A", "B"]
    eliminationOrder := []
    winnerId := none
    lastTickTime := 0 }

/-- Witness for C10: the accepted case at a concrete running session. -/
def sprintMove : MovementInput :=
  { x := 1, z := 0, sprint := true }

/-- Identity-and-status key of a player; the elimination bookkeeping only
moves the other fields. -/
def playerKey (p : PlayerBall) : String × Bool :=
  (p.socketId, p.isEliminated)

/-- Ids of the non-eliminated players, in roster order. -/
def aliveIds (l : List PlayerBall) : List String :=
  (l.filter (fun p => !p.isEliminated)).map PlayerBall.socketId

/-- Well-formedness of a session state: distinct player ids, alivePlayers is
exactly the ids of the non-eliminated roster entries, the elimination order
has no duplicates, and every id in it belongs to an eliminated player. -/
def WF (gd : BumperBallsGameData) : Prop :=
  (gd.players.map PlayerBall.socketId).Nodup
  ∧ gd.alivePlayers = aliveIds gd.players
  ∧ gd.eliminationOrder.Nodup
  ∧ ∀ id ∈ gd.eliminationOrder, ∀ p ∈ gd.players, p.socketId = id → p.isEliminated = true

/-- Invariant carried through the checkEliminations fold, relating the
running state to the state the tick started from. -/
def ElimInv (gd : BumperBallsGameData) (st : BumperBallsGameData × List GameEvent) : Prop :=
  WF st.1
  ∧ st.1.players.map PlayerBall.socketId = gd.players.map PlayerBall.socketId
  ∧ (∀ (j : ℕ) (q : PlayerBall), gd.players[j]? = some q → q.isEliminated = true →
      ∃ q2 : PlayerBall, st.1.players[j]? = some q2 ∧ q2.isEliminated = true)
  ∧ ∃ newIds : List String, st.1.eliminationOrder = gd.eliminationOrder ++ newIds
      ∧ st.1.alivePlayers.length + newIds.length = gd.alivePlayers.length
      ∧ st.2.length = newIds.length

-- ===========================================================================
-- Theorems
-- ===========================================================================

example : (updateStamina samplePlayer 1).stamina = 100 := by
  norm_num [updateStamina, samplePlayer, staminaDrainMoving, inputSprint,
    STAMINA_REGEN, MAX_STAMINA, MIN_SPRINT_STAMINA]

example :
    (updateStamina
      { samplePlayer with isSprinting := true, stamina := 10,
                          lastInput := some { x := 1, z := 0, sprint := true } } 1).stamina
      = 0 := by
  norm_num [updateStamina, samplePlayer, staminaDrainMoving, inputSprint,
    STAMINA_DRAIN, MIN_SPRINT_STAMINA]

-- Symmetry lemmas: running the resolver with the players swapped and the
-- collision normal negated mirrors every stage.

theorem sepPlayer1_swap (q : PlayerBall) (nx nz d : ℚ) :
    sepPlayer1 q (-nx) (-nz) d = sepPlayer2 q nx nz d := by
  unfold sepPlayer1 sepPlayer2
  ext <;> dsimp <;> ring

theorem sepPlayer2_swap (q : PlayerBall) (nx nz d : ℚ) :
    sepPlayer2 q (-nx) (-nz) d = sepPlayer1 q nx nz d := by
  unfold sepPlayer1 sepPlayer2
  ext <;> dsimp <;> ring

theorem collVelAlongNormal_swap (a b : PlayerBall) (nx nz : ℚ) :
    collVelAlongNormal b a (-nx) (-nz) = collVelAlongNormal a b nx nz := by
  unfold collVelAlongNormal
  ring

theorem collJ_swap (a b : PlayerBall) (nx nz : ℚ) :
    collJ b a (-nx) (-nz) = collJ a b nx nz := by
  unfold collJ
  rw [collVelAlongNormal_swap, add_comm (collMass b)]

theorem collImpulse1_swap (sq : ℚ → ℚ) (a b : PlayerBall) (nx nz : ℚ) :
    collImpulse1 sq b a (-nx) (-nz) = collImpulse2 sq a b nx nz := by
  unfold collImpulse1 collImpulse2
  rw [collJ_swap]

theorem collImpulse2_swap (sq : ℚ → ℚ) (a b : PlayerBall) (nx nz : ℚ) :
    collImpulse2 sq b a (-nx) (-nz) = collImpulse1 sq a b nx nz := by
  unfold collImpulse1 collImpulse2
  rw [collJ_swap]

theorem collMag1_swap (sq : ℚ → ℚ) (a b : PlayerBall) (nx nz : ℚ) :
    collMag1 sq b a (-nx) (-nz) = collMag2 sq a b nx nz := by
  unfold collMag1 collMag2
  rw [collImpulse1_swap]
  congr 1
  ring

theorem collMag2_swap (sq : ℚ → ℚ) (a b : PlayerBall) (nx nz : ℚ) :
    collMag2 sq b a (-nx) (-nz) = collMag1 sq a b nx nz := by
  unfold collMag1 collMag2
  rw [collImpulse2_swap]
  congr 1
  ring

theorem collScale1_swap (sq : ℚ → ℚ) (a b : PlayerBall) (nx nz : ℚ) :
    collScale1 sq b a (-nx) (-nz) = collScale2 sq a b nx nz := by
  unfold collScale1 collScale2
  rw [collMag1_swap]

theorem collScale2_swap (sq : ℚ → ℚ) (a b : PlayerBall) (nx nz : ℚ) :
    collScale2 sq b a (-nx) (-nz) = collScale1 sq a b nx nz := by
  unfold collScale1 collScale2
  rw [collMag2_swap]

theorem impulseApply1_swap (sq : ℚ → ℚ) (a b : PlayerBall) (nx nz : ℚ) :
    impulseApply1 sq b a (-nx) (-nz) = impulseApply2 sq a b nx nz := by
  unfold impulseApply1 impulseApply2
  rw [collImpulse1_swap]
  ext <;> dsimp <;> ring

theorem impulseApply2_swap (sq : ℚ → ℚ) (a b : PlayerBall) (nx nz : ℚ) :
    impulseApply2 sq b a (-nx) (-nz) = impulseApply1 sq a b nx nz := by
  unfold impulseApply1 impulseApply2
  rw [collImpulse2_swap]
  ext <;> dsimp <;> ring

theorem minRescale1_swap (sq : ℚ → ℚ) (a b : PlayerBall) (nx nz : ℚ) (qv : PlayerBall) :
    minRescale1 sq b a (-nx) (-nz) qv = minRescale2 sq a b nx nz qv := by
  unfold minRescale1 minRescale2
  rw [collMag1_swap, collImpulse1_swap, collScale1_swap]
  split
  · ext <;> dsimp <;> ring
  · rfl

theorem minRescale2_swap (sq : ℚ → ℚ) (a b : PlayerBall) (nx nz : ℚ) (qv : PlayerBall) :
    minRescale2 sq b a (-nx) (-nz) qv = minRescale1 sq a b nx nz qv := by
  unfold minRescale1 minRescale2
  rw [collMag2_swap, collImpulse2_swap, collScale2_swap]
  split
  · ext <;> dsimp <;> ring
  · rfl

theorem resolveCollisionCore_symm (sq : ℚ → ℚ) (now : ℚ) (a b : PlayerBall)
    (nx nz d : ℚ) :
    ((resolveCollisionCore sq now b a (-nx) (-nz) d).2.position
        = (resolveCollisionCore sq now a b nx nz d).1.position)
    ∧ ((resolveCollisionCore sq now b a (-nx) (-nz) d).2.velocity
        = (resolveCollisionCore sq now a b nx nz d).1.velocity)
    ∧ ((resolveCollisionCore sq now b a (-nx) (-nz) d).1.position
        = (resolveCollisionCore sq now a b nx nz d).2.position)
    ∧ ((resolveCollisionCore sq now b a (-nx) (-nz) d).1.velocity
        = (resolveCollisionCore sq now a b nx nz d).2.velocity) := by
  unfold resolveCollisionCore
  rw [sepPlayer1_swap, sepPlayer2_swap]
  dsimp only
  rw [collVelAlongNormal_swap, minRescale1_swap, minRescale2_swap,
    impulseApply1_swap, impulseApply2_swap]
  split_ifs <;> exact ⟨rfl, rfl, rfl, rfl⟩

/-- C5: for any colliding pair, resolving with the arguments swapped (players
exchanged, separation vector and hence collision normal negated) yields the
same post-resolution positions and velocities for both players as resolving
in the original order. -/
theorem collision_resolution_symmetric (sq : ℚ → ℚ) (now : ℚ) (p1 p2 : PlayerBall)
    (dx dz d : ℚ) :
    ((resolveCollision sq now p2 p1 (-dx) (-dz) d).2.position
        = (resolveCollision sq now p1 p2 dx dz d).1.position)
    ∧ ((resolveCollision sq now p2 p1 (-dx) (-dz) d).2.velocity
        = (resolveCollision sq now p1 p2 dx dz d).1.velocity)
    ∧ ((resolveCollision sq now p2 p1 (-dx) (-dz) d).1.position
        = (resolveCollision sq now p1 p2 dx dz d).2.position)
    ∧ ((resolveCollision sq now p2 p1 (-dx) (-dz) d).1.velocity
        = (resolveCollision sq now p1 p2 dx dz d).2.velocity) := by
  unfold resolveCollision
  rw [neg_div, neg_div]
  exact resolveCollisionCore_symm sq now p1 p2 (dx / d) (dz / d) d

/-- C2: for any delta time at least 0, a stamina value inside the range 0..100
stays inside 0..100 after updateStamina: draining floors at 0 and
regeneration caps at MAX_STAMINA = 100. -/
theorem stamina_stays_in_bounds (p : PlayerBall) (dt : ℚ)
    (hdt : 0 ≤ dt) (h0 : 0 ≤ p.stamina) (h1 : p.stamina ≤ 100) :
    0 ≤ (updateStamina p dt).stamina ∧ (updateStamina p dt).stamina ≤ 100 := by
  unfold updateStamina
  dsimp only
  split_ifs <;>
    constructor <;>
      simp_all [STAMINA_DRAIN, STAMINA_REGEN, MAX_STAMINA] <;>
        linarith

/-- Witness for C2 at a concrete sprinting player and delta time. -/
theorem stamina_stays_in_bounds_witness :
    0 ≤ (updateStamina samplePlayer (1/2)).stamina
      ∧ (updateStamina samplePlayer (1/2)).stamina ≤ 100 :=
  stamina_stays_in_bounds samplePlayer (1/2) (by norm_num)
    (by norm_num [samplePlayer]) (by norm_num [samplePlayer])

/-- C4: after updateStamina the sprint flag is set exactly when the last
input requests sprint and the updated stamina is at or above
MIN_SPRINT_STAMINA = 10; in particular, when stamina hits 0 on a tick the
output flag is false regardless of the requested sprint. -/
theorem sprint_flag_coupling (p : PlayerBall) (dt : ℚ) :
    ((updateStamina p dt).isSprinting
        = (inputSprint p && decide ((updateStamina p dt).stamina ≥ MIN_SPRINT_STAMINA)))
    ∧ ((updateStamina p dt).stamina = 0 → (updateStamina p dt).isSprinting = false) := by
  have hspr : ∀ q : PlayerBall, inputSprint { q with isSprinting := false } = inputSprint q := by
    intro q
    unfold inputSprint
    rfl
  constructor
  · unfold updateStamina
    dsimp only
    split_ifs with h1 h2 h3 h1 h2 h3 <;>
      simp_all [inputSprint, MIN_SPRINT_STAMINA]
  · intro hz
    unfold updateStamina at hz ⊢
    dsimp only at hz ⊢
    split_ifs at hz ⊢ with h1 h2 h3 <;>
      simp_all [MIN_SPRINT_STAMINA] <;>
        linarith

/-- Witness for C4: a sprinting player whose stamina is fully drained on the
tick has the sprint flag forced off even though the input still requests
sprint. -/
theorem sprint_flag_coupling_witness :
    (updateStamina
        { samplePlayer with isSprinting := true, stamina := 10,
                            lastInput := some { x := 1, z := 0, sprint := true } } 1).isSprinting
      = false :=
  (sprint_flag_coupling
      { samplePlayer with isSprinting := true, stamina := 10,
                          lastInput := some { x := 1, z := 0, sprint := true } } 1).2
    (by norm_num [updateStamina, samplePlayer, staminaDrainMoving, inputSprint,
      STAMINA_DRAIN, MIN_SPRINT_STAMINA])

/-- Projection used by the knockback analysis: below the impulse branch, the
first component of the resolver output carries the velocity produced by the
impulse application followed by the minimum-knockback step (the last-hit
bookkeeping never touches velocities). -/
theorem resolveCollisionCore_fst_velocity (sq : ℚ → ℚ) (now : ℚ)
    (q1 q2 : PlayerBall) (nx nz d : ℚ)
    (hvan : ¬ collVelAlongNormal (sepPlayer1 q1 nx nz d) (sepPlayer2 q2 nx nz d) nx nz > 0) :
    (resolveCollisionCore sq now q1 q2 nx nz d).1.velocity
      = (minRescale1 sq (sepPlayer1 q1 nx nz d) (sepPlayer2 q2 nx nz d) nx nz
          (impulseApply1 sq (sepPlayer1 q1 nx nz d) (sepPlayer2 q2 nx nz d) nx nz)).velocity := by
  unfold resolveCollisionCore
  dsimp only
  rw [if_neg hvan]
  split_ifs <;> rfl

/-- C6 (amended): when the impulse already applied to player 1 has magnitude
M with 0 < M < 24, the minimum-knockback step applies a FURTHER copy of the
impulse scaled by 24 / M, so the total velocity change has magnitude M + 24 -
at least the minimum and direction preserving, but not exactly the minimum as
the claim states. -/
theorem min_knockback_total_magnitude (sq : ℚ → ℚ) (now : ℚ)
    (q1 q2 : PlayerBall) (nx nz d M i1 : ℚ)
    (hM : M = collMag1 sq (sepPlayer1 q1 nx nz d) (sepPlayer2 q2 nx nz d) nx nz)
    (hi : i1 = collImpulse1 sq (sepPlayer1 q1 nx nz d) (sepPlayer2 q2 nx nz d) nx nz)
    (hvan : ¬ collVelAlongNormal (sepPlayer1 q1 nx nz d) (sepPlayer2 q2 nx nz d) nx nz > 0)
    (hpos : 0 < M) (hlt : M < 24)
    (hsq : M ^ 2 = (i1 * nx) ^ 2 + (i1 * nz) ^ 2) :
    ((resolveCollisionCore sq now q1 q2 nx nz d).1.velocity.x - q1.velocity.x
        = -((1 + 24 / M) * (i1 * nx)))
    ∧ ((resolveCollisionCore sq now q1 q2 nx nz d).1.velocity.z - q1.velocity.z
        = -((1 + 24 / M) * (i1 * nz)))
    ∧ (((resolveCollisionCore sq now q1 q2 nx nz d).1.velocity.x - q1.velocity.x) ^ 2
        + ((resolveCollisionCore sq now q1 q2 nx nz d).1.velocity.z - q1.velocity.z) ^ 2
        = (M + 24) ^ 2)
    ∧ 0 < 1 + 24 / M := by
  have hM0 : M ≠ 0 := ne_of_gt hpos
  have hMlt : collMag1 sq (sepPlayer1 q1 nx nz d) (sepPlayer2 q2 nx nz d) nx nz < 24 := by
    rw [← hM]; exact hlt
  have hMne : ¬ collMag1 sq (sepPlayer1 q1 nx nz d) (sepPlayer2 q2 nx nz d) nx nz = 0 := by
    rw [← hM]; exact hM0
  have hv := resolveCollisionCore_fst_velocity sq now q1 q2 nx nz d hvan
  have hx : (resolveCollisionCore sq now q1 q2 nx nz d).1.velocity.x - q1.velocity.x
      = -((1 + 24 / M) * (i1 * nx)) := by
    rw [hv]
    unfold minRescale1
    rw [if_pos hMlt]
    unfold collScale1
    rw [if_neg hMne]
    unfold impulseApply1
    dsimp only
    rw [show (sepPlayer1 q1 nx nz d).velocity = q1.velocity from rfl, ← hi, ← hM]
    ring
  have hz : (resolveCollisionCore sq now q1 q2 nx nz d).1.velocity.z - q1.velocity.z
      = -((1 + 24 / M) * (i1 * nz)) := by
    rw [hv]
    unfold minRescale1
    rw [if_pos hMlt]
    unfold collScale1
    rw [if_neg hMne]
    unfold impulseApply1
    dsimp only
    rw [show (sepPlayer1 q1 nx nz d).velocity = q1.velocity from rfl, ← hi, ← hM]
    ring
  have hkey : (1 + 24 / M) * M = M + 24 := by
    field_simp
  refine ⟨hx, hz, ?_, ?_⟩
  · rw [hx, hz]
    calc (-((1 + 24 / M) * (i1 * nx))) ^ 2 + (-((1 + 24 / M) * (i1 * nz))) ^ 2
        = (1 + 24 / M) ^ 2 * ((i1 * nx) ^ 2 + (i1 * nz) ^ 2) := by ring
      _ = (1 + 24 / M) ^ 2 * M ^ 2 := by rw [← hsq]
      _ = ((1 + 24 / M) * M) ^ 2 := by ring
      _ = (M + 24) ^ 2 := by rw [hkey]
  · have h24 : (0:ℚ) < 24 / M := div_pos (by norm_num) hpos
    linarith

theorem ratSqrt_zero : ratSqrt 0 = 0 := by
  norm_num [ratSqrt]

theorem ratSqrt_one : ratSqrt 1 = 1 := by
  rw [ratSqrt]
  norm_num

theorem ratSqrt_529_16 : ratSqrt (529/16) = 23/4 := by
  rw [ratSqrt]
  rw [show ((529:ℚ)/16).num = 529 by norm_num, show ((529:ℚ)/16).den = 16 by norm_num]
  rw [show Int.toNat 529 = 529 from rfl]
  norm_num

theorem ratSqrt_89401_1600 : ratSqrt (89401/1600) = 299/40 := by
  rw [ratSqrt]
  rw [show ((89401:ℚ)/1600).num = 89401 by norm_num,
    show ((89401:ℚ)/1600).den = 1600 by norm_num]
  rw [show Int.toNat 89401 = 89401 from rfl]
  norm_num

theorem bump_van :
    collVelAlongNormal (sepPlayer1 bumpP1 1 0 (4/5)) (sepPlayer2 bumpP2 1 0 (4/5)) 1 0
      = -1 := by
  norm_num [collVelAlongNormal, sepPlayer1, sepPlayer2, bumpP1, bumpP2, samplePlayer]

theorem bump_i1 :
    collImpulse1 ratSqrt (sepPlayer1 bumpP1 1 0 (4/5)) (sepPlayer2 bumpP2 1 0 (4/5)) 1 0
      = 23/4 := by
  norm_num [collImpulse1, collJ, collSpeedFactor, collSpeed, collMass,
    collVelAlongNormal, sepPlayer1, sepPlayer2, bumpP1, bumpP2, samplePlayer,
    ratSqrt_zero, ratSqrt_one, MAX_VELOCITY]

theorem bump_mag1 :
    collMag1 ratSqrt (sepPlayer1 bumpP1 1 0 (4/5)) (sepPlayer2 bumpP2 1 0 (4/5)) 1 0
      = 23/4 := by
  rw [collMag1, bump_i1]
  norm_num [ratSqrt_529_16]

/-- Witness for the amended C6 statement at the concrete bump scenario: the
under-threshold impulse of magnitude 23/4 results in a total velocity change
of magnitude 23/4 + 24, not 24. -/
theorem min_knockback_total_magnitude_witness :
    ((resolveCollisionCore ratSqrt 0 bumpP1 bumpP2 1 0 (4/5)).1.velocity.x
          - bumpP1.velocity.x) ^ 2
      + ((resolveCollisionCore ratSqrt 0 bumpP1 bumpP2 1 0 (4/5)).1.velocity.z
          - bumpP1.velocity.z) ^ 2
      = (23/4 + 24) ^ 2 :=
  (min_knockback_total_magnitude ratSqrt 0 bumpP1 bumpP2 1 0 (4/5) (23/4) (23/4)
    bump_mag1.symm bump_i1.symm
    (by rw [bump_van]; norm_num) (by norm_num) (by norm_num)
    (by norm_num)).2.2.1

/-- C6 counterexample: in the concrete bump scenario the impulse applied to
player 1 is under the minimum threshold (magnitude 23/4 < 24), yet the total
velocity change applied by resolveCollision has squared magnitude
(119/4) ^ 2, not 24 ^ 2 - the code adds the rescaled impulse on top of the
already-applied one instead of rescaling it to exactly the minimum. -/
theorem min_knockback_not_exact_counterexample :
    collMag1 ratSqrt (sepPlayer1 bumpP1 1 0 (4/5)) (sepPlayer2 bumpP2 1 0 (4/5)) 1 0 < 24
    ∧ ((resolveCollision ratSqrt 0 bumpP1 bumpP2 (4/5) 0 (4/5)).1.velocity.x
          - bumpP1.velocity.x) ^ 2
        + ((resolveCollision ratSqrt 0 bumpP1 bumpP2 (4/5) 0 (4/5)).1.velocity.z
          - bumpP1.velocity.z) ^ 2
        = (119/4) ^ 2
    ∧ ((119:ℚ)/4) ^ 2 ≠ 24 ^ 2 := by
  have hred : resolveCollision ratSqrt 0 bumpP1 bumpP2 (4/5) 0 (4/5)
      = resolveCollisionCore ratSqrt 0 bumpP1 bumpP2 1 0 (4/5) := by
    unfold resolveCollision
    norm_num
  have hvan : ¬ collVelAlongNormal (sepPlayer1 bumpP1 1 0 (4/5))
      (sepPlayer2 bumpP2 1 0 (4/5)) 1 0 > 0 := by
    rw [bump_van]
    norm_num
  have hv := resolveCollisionCore_fst_velocity ratSqrt 0 bumpP1 bumpP2 1 0 (4/5) hvan
  refine ⟨by rw [bump_mag1]; norm_num, ?_, by norm_num⟩
  rw [hred, hv]
  unfold minRescale1 collScale1 impulseApply1
  rw [bump_mag1, bump_i1]
  norm_num [sepPlayer1, sepPlayer2, bumpP1, bumpP2, samplePlayer]

/-- C1: at coincident centres the pair is detected (distance 0 < 1) and
resolveCollision divides by the zero distance, so every planar position and
velocity component of both players becomes non-finite (NaN) - the code has
no degenerate-axis guard, contradicting the no-divide-by-zero requirement. -/
theorem coincident_centers_produce_nan :
    ((checkCollisionPairJs ratSqrt 0 (coincidentPlayer "A") (coincidentPlayer "B")).1.position.x = none)
    ∧ ((checkCollisionPairJs ratSqrt 0 (coincidentPlayer "A") (coincidentPlayer "B")).1.position.z = none)
    ∧ ((checkCollisionPairJs ratSqrt 0 (coincidentPlayer "A") (coincidentPlayer "B")).2.position.x = none)
    ∧ ((checkCollisionPairJs ratSqrt 0 (coincidentPlayer "A") (coincidentPlayer "B")).2.position.z = none)
    ∧ ((checkCollisionPairJs ratSqrt 0 (coincidentPlayer "A") (coincidentPlayer "B")).1.velocity.x = none)
    ∧ ((checkCollisionPairJs ratSqrt 0 (coincidentPlayer "A") (coincidentPlayer "B")).1.velocity.z = none)
    ∧ ((checkCollisionPairJs ratSqrt 0 (coincidentPlayer "A") (coincidentPlayer "B")).2.velocity.x = none)
    ∧ ((checkCollisionPairJs ratSqrt 0 (coincidentPlayer "A") (coincidentPlayer "B")).2.velocity.z = none) := by
  norm_num [checkCollisionPairJs, resolveCollisionJs, coincidentPlayer,
    jadd, jsub, jmul, jdiv, jlt, jgt, jsqrt, jfallback1, ratSqrt_zero, ratSqrt,
    BALL_RADIUS, MAX_VELOCITY]

/-- C7: a single checkVictoryCondition invocation in which both the
one-survivor condition and the timed-mode expiry hold calls endGame twice:
two game-end notifications are emitted and winnerId is assigned twice, the
second assignment (the eliminations leader) overwriting the first (the
survivor). -/
theorem victory_check_double_end :
    ((checkVictoryCondition 180000 gdTimedOneSurvivor).2
        = [GameEvent.gameEnd "A", GameEvent.gameEnd "B"])
    ∧ ((checkVictoryCondition 180000 gdTimedOneSurvivor).1.winnerId = some "B")
    ∧ ((checkVictoryCondition 180000 gdTimedOneSurvivor).1.status = GameStatus.ended)
    ∧ gdTimedOneSurvivor.winnerId = none := by
  norm_num [checkVictoryCondition, endGame, sortByElimsDesc, insertByElims,
    gdTimedOneSurvivor, survivorA, eliminatedB, samplePlayer, List.headI]

/-- C9: the sanitizer drops the per-player server-only fields (the sanitized
player shape has no acceleration, lastInput, lastHitBy or lastHitTime, and
all client-visible player fields are copied unchanged), but the top-level
spread keeps the server-only lastTickTime: the concrete snapshot below still
carries lastTickTime = 12345. -/
theorem sanitize_keeps_lastTickTime :
    (∀ gd : BumperBallsGameData, ∀ p ∈ gd.players,
      sanitizePlayer p ∈ (sanitizeGameData gd).players
        ∧ (sanitizePlayer p).socketId = p.socketId
        ∧ (sanitizePlayer p).position = p.position
        ∧ (sanitizePlayer p).velocity = p.velocity
        ∧ (sanitizePlayer p).stamina = p.stamina
        ∧ (sanitizePlayer p).isEliminated = p.isEliminated)
    ∧ (sanitizeGameData gdWithTickTime).lastTickTime = 12345
    ∧ gdWithTickTime.lastTickTime = 12345 := by
  refine ⟨fun gd p hp => ⟨?_, rfl, rfl, rfl, rfl, rfl⟩, rfl, rfl⟩
  exact List.mem_map_of_mem sanitizePlayer hp

/-- Witness for C9 at the concrete session state. -/
theorem sanitize_keeps_lastTickTime_witness :
    sanitizePlayer survivorA ∈ (sanitizeGameData gdWithTickTime).players
      ∧ (sanitizePlayer survivorA).stamina = survivorA.stamina :=
  ⟨(sanitize_keeps_lastTickTime.1 gdWithTickTime survivorA
      (by simp [gdWithTickTime, gdTimedOneSurvivor])).1,
    (sanitize_keeps_lastTickTime.1 gdWithTickTime survivorA
      (by simp [gdWithTickTime, gdTimedOneSurvivor])).2.2.2.2.1⟩

/-- C8: a game:end message from a sender that is not the host still ends the
session: the lobby handler does send the error to the requester only, but
the bumper handler, which never verifies the host (TODO in the source),
force-ends the game with the eliminations leader as winner, so the session
state does not stay unchanged. -/
theorem nonhost_game_end_still_ends_game :
    ((handleGameEnd "EVIL" "R" [("R", gdRunning)]
        [("R", { hostId := "HOST", lobbyState := LobbyState.playing, hasGameData := true })]).2.2
      = [GameEvent.gameEnd "B", GameEvent.errorTo "EVIL" "Only host can end the game"])
    ∧ (lookupGame "R" (handleGameEnd "EVIL" "R" [("R", gdRunning)]
        [("R", { hostId := "HOST", lobbyState := LobbyState.playing, hasGameData := true })]).1
      = some { gdRunning with status := GameStatus.ended, winnerId := some "B" })
    ∧ gdRunning.status = GameStatus.playing
    ∧ "EVIL" ≠ "HOST" := by
  refine ⟨?_, ?_, rfl, by decide⟩ <;>
    simp [handleGameEnd, handleGameEndBumper, handleGameEndLobby, lookupGame, setGame,
      endGame, sortByElimsDesc, insertByElims, gdRunning, survivorA, leaderB,
      samplePlayer, List.headI, List.find?]

/-- C10: a bumper:move message for an unknown room, an unknown player or an
eliminated player leaves the registry unchanged; an accepted message replaces
the registry entry with one whose only difference is the addressed player's
lastInput: every other index is untouched, every other field of the player is
untouched, and entries of other rooms are kept. -/
theorem bumper_move_frame (senderId roomCode : String) (movement : MovementInput)
    (games : List (String × BumperBallsGameData)) :
    (lookupGame roomCode games = none →
      handleBumperMove senderId roomCode movement games = games)
    ∧ (∀ gd, lookupGame roomCode games = some gd →
        (gd.players.findIdx? (fun p => p.socketId == senderId) = none →
          handleBumperMove senderId roomCode movement games = games)
        ∧ (∀ k player,
            gd.players.findIdx? (fun p => p.socketId == senderId) = some k →
            gd.players[k]? = some player →
            (player.isEliminated = true →
              handleBumperMove senderId roomCode movement games = games)
            ∧ (player.isEliminated = false →
                (handleBumperMove senderId roomCode movement games
                    = setGame roomCode
                        { gd with players :=
                            gd.players.set k { player with lastInput := some movement } }
                        games)
                ∧ (∀ j, j ≠ k →
                    (gd.players.set k { player with lastInput := some movement })[j]?
                      = gd.players[j]?)
                ∧ ({ player with lastInput := some movement }).position = player.position
                ∧ ({ player with lastInput := some movement }).velocity = player.velocity
                ∧ ({ player with lastInput := some movement }).stamina = player.stamina
                ∧ ({ player with lastInput := some movement }).isEliminated = player.isEliminated
                ∧ ({ player with lastInput := some movement }).eliminations = player.eliminations
                ∧ (∀ e ∈ games, e.1 ≠ roomCode →
                    e ∈ setGame roomCode
                        { gd with players :=
                            gd.players.set k { player with lastInput := some movement } }
                        games)))) := by
  constructor
  · intro h
    unfold handleBumperMove
    rw [h]
  · intro gd hgd
    constructor
    · intro h
      unfold handleBumperMove
      rw [hgd]
      dsimp only
      rw [h]
    · intro k player hk hp
      constructor
      · intro helim
        unfold handleBumperMove
        rw [hgd]
        dsimp only
        rw [hk]
        dsimp only
        rw [hp]
        dsimp only
        rw [if_pos helim]
      · intro halive
        refine ⟨?_, ?_, rfl, rfl, rfl, rfl, rfl, ?_⟩
        · unfold handleBumperMove
          rw [hgd]
          dsimp only
          rw [hk]
          dsimp only
          rw [hp]
          dsimp only
          rw [if_neg (by simp [halive])]
        · intro j hj
          exact List.getElem?_set_ne (fun hkj => hj hkj.symm)
        · intro e he hne
          unfold setGame
          have : (e.1 == roomCode) = false := by
            simp [hne]
          refine List.mem_map.mpr ⟨e, he, ?_⟩
          rw [this]
          simp

theorem bumper_move_frame_witness :
    handleBumperMove "A" "R" sprintMove [("R", gdRunning)]
      = setGame "R"
          { gdRunning with players :=
              gdRunning.players.set 0 ({ survivorA with lastInput := some sprintMove }) }
          [("R", gdRunning)] :=
  (((bumper_move_frame "A" "R" sprintMove
        [("R", gdRunning)]).2 gdRunning (by simp [lookupGame, gdRunning])).2 0 survivorA
      (by simp [gdRunning, survivorA, leaderB, samplePlayer])
      (by simp [gdRunning])).2 (by simp [survivorA, samplePlayer]) |>.1

theorem aliveIds_congr {l1 l2 : List PlayerBall}
    (h : l1.map playerKey = l2.map playerKey) : aliveIds l1 = aliveIds l2 := by
  induction l1 generalizing l2 with
  | nil =>
    cases l2 with
    | nil => rfl
    | cons b t => simp at h
  | cons a t ih =>
    cases l2 with
    | nil => simp at h
    | cons b t2 =>
      simp only [List.map_cons, List.cons.injEq] at h
      obtain ⟨hk, ht⟩ := h
      have hid : a.socketId = b.socketId := congrArg Prod.fst hk
      have hel : a.isEliminated = b.isEliminated := congrArg Prod.snd hk
      have iht := ih ht
      unfold aliveIds at iht ⊢
      rw [List.filter_cons, List.filter_cons, hel]
      cases hbel : b.isEliminated <;> simp [hid, iht]

theorem map_playerKey_set {l : List PlayerBall} {i : ℕ} {a b : PlayerBall}
    (ha : l[i]? = some a) (hk : playerKey b = playerKey a) :
    (l.set i b).map playerKey = l.map playerKey := by
  apply List.ext_getElem?
  intro n
  rw [List.getElem?_map, List.getElem?_map, List.getElem?_set]
  by_cases hin : i = n
  · subst hin
    rw [if_pos rfl]
    obtain ⟨hlt, hget⟩ := List.getElem?_eq_some.mp ha
    rw [if_pos hlt, ha]
    simp [hk]
  · rw [if_neg hin]

theorem getElem?_map_playerKey {l1 l2 : List PlayerBall}
    (h : l1.map playerKey = l2.map playerKey) (n : ℕ) :
    (l1[n]?).map playerKey = (l2[n]?).map playerKey := by
  rw [← List.getElem?_map, ← List.getElem?_map, h]

theorem creditAttacker_map_playerKey (hb : Option String) (ht : Option ℚ) (now : ℚ)
    (ps : List PlayerBall) :
    (creditAttacker hb ht now ps).map playerKey = ps.map playerKey := by
  unfold creditAttacker
  cases hb with
  | none => rfl
  | some b =>
    cases ht with
    | none => rfl
    | some t =>
      dsimp only
      split_ifs with hw
      · cases hfi : ps.findIdx? (fun p => p.socketId == b) with
        | none => rfl
        | some k =>
          dsimp only
          cases hk : ps[k]? with
          | none => rfl
          | some attacker =>
            dsimp only
            split_ifs with helim
            · rfl
            · exact map_playerKey_set hk rfl
      · rfl

theorem mem_ids_of_mem_aliveIds {l : List PlayerBall} {id : String}
    (h : id ∈ aliveIds l) : id ∈ l.map PlayerBall.socketId := by
  unfold aliveIds at h
  obtain ⟨p, hp, rfl⟩ := List.mem_map.mp h
  exact List.mem_map_of_mem _ (List.mem_of_mem_filter hp)

theorem aliveIds_nodup {l : List PlayerBall}
    (hnd : (l.map PlayerBall.socketId).Nodup) : (aliveIds l).Nodup := by
  unfold aliveIds
  exact ((List.filter_sublist l).map PlayerBall.socketId).nodup hnd

theorem aliveIds_set_true (now : ℚ) {ps : List PlayerBall} {i : ℕ} {p : PlayerBall}
    (hnd : (ps.map PlayerBall.socketId).Nodup)
    (hp : ps[i]? = some p) (halive : p.isEliminated = false) :
    aliveIds (ps.set i { p with isEliminated := true, eliminatedAt := some now })
      = (aliveIds ps).filter (fun id => id != p.socketId) := by
  induction ps generalizing i with
  | nil => simp at hp
  | cons q t ih =>
    rw [List.map_cons, List.nodup_cons] at hnd
    obtain ⟨hq, hndt⟩ := hnd
    cases i with
    | zero =>
      rw [List.getElem?_cons_zero] at hp
      obtain rfl : q = p := by injection hp
      rw [List.set_cons_zero]
      unfold aliveIds
      rw [List.filter_cons, List.filter_cons]
      have h1 : (!(({ q with isEliminated := true, eliminatedAt := some now }
          : PlayerBall).isEliminated)) = false := rfl
      have h2 : (!q.isEliminated) = true := by rw [halive]; rfl
      rw [h1, h2, if_neg Bool.false_ne_true, if_pos rfl, List.map_cons, List.filter_cons,
        bne_self_eq_false, if_neg Bool.false_ne_true]
      symm
      rw [List.filter_eq_self]
      intro a ha
      have hat : a ∈ t.map PlayerBall.socketId :=
        mem_ids_of_mem_aliveIds (by exact ha)
      exact bne_iff_ne.mpr fun he => hq (he ▸ hat)
    | succ j =>
      rw [List.getElem?_cons_succ] at hp
      have hpt : p.socketId ∈ t.map PlayerBall.socketId :=
        List.mem_map_of_mem _ (List.mem_iff_getElem?.mpr ⟨j, hp⟩)
      have hqp : q.socketId ≠ p.socketId := fun he => hq (he ▸ hpt)
      rw [List.set_cons_succ]
      unfold aliveIds
      rw [List.filter_cons, List.filter_cons]
      cases hqe : q.isEliminated with
      | true =>
        simp only [Bool.not_true, ite_false]
        exact ih hndt hp
      | false =>
        simp only [Bool.not_false, ite_true, List.map_cons, List.filter_cons]
        rw [if_pos (bne_iff_ne.mpr hqp)]
        have := ih hndt hp
        unfold aliveIds at this
        rw [this]

theorem length_filter_ne {l : List String} {a : String}
    (hnd : l.Nodup) (ha : a ∈ l) :
    (l.filter (fun id => id != a)).length + 1 = l.length := by
  induction l with
  | nil => cases ha
  | cons b t ih =>
    obtain ⟨hb, ht⟩ := List.nodup_cons.mp hnd
    rw [List.filter_cons]
    by_cases hba : b = a
    · subst hba
      simp only [bne_self_eq_false, ite_false]
      rw [List.filter_eq_self.mpr]
      · simp
      · intro x hx
        exact bne_iff_ne.mpr fun he => hb (he ▸ hx)
    · rw [if_pos (bne_iff_ne.mpr hba)]
      have hat : a ∈ t := by
        rcases List.mem_cons.mp ha with h | h
        · exact absurd h.symm hba
        · exact h
      have := ih ht hat
      simp only [List.length_cons]
      omega

theorem set_getElem?_self {α : Type} {l : List α} {i : ℕ} {a : α}
    (h : l[i]? = some a) : l.set i a = l := by
  apply List.ext_getElem?
  intro n
  rw [List.getElem?_set]
  by_cases hin : i = n
  · subst hin
    obtain ⟨hlt, _⟩ := List.getElem?_eq_some.mp h
    rw [if_pos rfl, if_pos hlt, h]
  · rw [if_neg hin]

theorem map_socketId_eq_of_key {l1 l2 : List PlayerBall}
    (h : l1.map playerKey = l2.map playerKey) :
    l1.map PlayerBall.socketId = l2.map PlayerBall.socketId := by
  have hview : ∀ l : List PlayerBall,
      l.map PlayerBall.socketId = (l.map playerKey).map Prod.fst := by
    intro l
    rw [List.map_map]
    rfl
  rw [hview, hview, h]

theorem eliminated_of_key {a b : PlayerBall} (h : playerKey a = playerKey b) :
    a.isEliminated = b.isEliminated :=
  congrArg Prod.snd h

theorem socketId_of_key {a b : PlayerBall} (h : playerKey a = playerKey b) :
    a.socketId = b.socketId :=
  congrArg Prod.fst h

theorem eliminatePlayer_spec (now : ℚ) (i : ℕ) (gd : BumperBallsGameData)
    (hwf : WF gd) {p : PlayerBall} (hp : gd.players[i]? = some p)
    (halive : p.isEliminated = false) :
    WF (eliminatePlayer now i gd).1
    ∧ (eliminatePlayer now i gd).1.players.map playerKey
        = (gd.players.set i
            ({ p with isEliminated := true, eliminatedAt := some now })).map playerKey
    ∧ (eliminatePlayer now i gd).1.players.map PlayerBall.socketId
        = gd.players.map PlayerBall.socketId
    ∧ (eliminatePlayer now i gd).1.eliminationOrder
        = gd.eliminationOrder ++ [p.socketId]
    ∧ (eliminatePlayer now i gd).1.alivePlayers.length + 1 = gd.alivePlayers.length
    ∧ (eliminatePlayer now i gd).2
        = [GameEvent.playerEliminated p.socketId
            (eliminatePlayer now i gd).1.alivePlayers.length] := by
  obtain ⟨hnd, hal, hord, hordElim⟩ := hwf
  have hpmem : p ∈ gd.players := List.mem_iff_getElem?.mpr ⟨i, hp⟩
  have hilt : i < gd.players.length := (List.getElem?_eq_some.mp hp).1
  have hres : eliminatePlayer now i gd
      = ({ gd with
            players := creditAttacker p.lastHitBy p.lastHitTime now
              (gd.players.set i ({ p with isEliminated := true, eliminatedAt := some now })),
            eliminationOrder := gd.eliminationOrder ++ [p.socketId],
            alivePlayers := gd.alivePlayers.filter (fun id => id != p.socketId) },
          [GameEvent.playerEliminated p.socketId
            (gd.alivePlayers.filter (fun id => id != p.socketId)).length]) := by
    unfold eliminatePlayer
    rw [hp]
  have hkey : (eliminatePlayer now i gd).1.players.map playerKey
      = (gd.players.set i
          ({ p with isEliminated := true, eliminatedAt := some now })).map playerKey := by
    rw [hres]
    exact creditAttacker_map_playerKey _ _ _ _
  have hidset : (gd.players.set i
      ({ p with isEliminated := true, eliminatedAt := some now })).map PlayerBall.socketId
      = gd.players.map PlayerBall.socketId := by
    rw [List.map_set]
    apply set_getElem?_self
    rw [List.getElem?_map, hp]
    rfl
  have hids : (eliminatePlayer now i gd).1.players.map PlayerBall.socketId
      = gd.players.map PlayerBall.socketId := by
    rw [map_socketId_eq_of_key hkey, hidset]
  have hpid_alive : p.socketId ∈ aliveIds gd.players := by
    unfold aliveIds
    exact List.mem_map_of_mem _ (List.mem_filter.mpr ⟨hpmem, by rw [halive]; rfl⟩)
  have hpid_order : p.socketId ∉ gd.eliminationOrder := by
    intro hmem
    have := hordElim p.socketId hmem p hpmem rfl
    rw [halive] at this
    exact Bool.false_ne_true this
  have halive2 : (eliminatePlayer now i gd).1.alivePlayers
      = aliveIds (eliminatePlayer now i gd).1.players := by
    rw [hres]
    show gd.alivePlayers.filter (fun id => id != p.socketId) = _
    rw [aliveIds_congr (creditAttacker_map_playerKey _ _ _ _),
      aliveIds_set_true now hnd hp halive, hal]
  refine ⟨⟨?_, halive2, ?_, ?_⟩, hkey, hids, by rw [hres], ?_, ?_⟩
  · rw [hids]
    exact hnd
  · rw [hres]
    show (gd.eliminationOrder ++ [p.socketId]).Nodup
    rw [List.nodup_append]
    exact ⟨hord, List.nodup_singleton _, List.disjoint_singleton.mpr hpid_order⟩
  · -- every id in the new order belongs to an eliminated player
    intro id hid q hq hqid
    obtain ⟨j, hj⟩ := List.mem_iff_getElem?.mp hq
    have hkj : (Option.map playerKey ((eliminatePlayer now i gd).1.players[j]?))
        = Option.map playerKey ((gd.players.set i
            ({ p with isEliminated := true, eliminatedAt := some now }))[j]?) := by
      rw [← List.getElem?_map, ← List.getElem?_map, hkey]
    rw [hj] at hkj
    by_cases hij : i = j
    · subst hij
      rw [List.getElem?_set, if_pos rfl, if_pos hilt] at hkj
      have hq2 : q.isEliminated = true := by
        have hh := eliminated_of_key (Option.some.inj hkj)
        rw [hh]
      exact hq2
    · rw [List.getElem?_set, if_neg hij] at hkj
      cases hq0 : gd.players[j]? with
      | none =>
        rw [hq0] at hkj
        simp at hkj
      | some q0 =>
        rw [hq0] at hkj
        have hkq : playerKey q = playerKey q0 := Option.some.inj hkj
        have hqid0 : q0.socketId = id := by
          rw [← socketId_of_key hkq, hqid]
        have hq0mem : q0 ∈ gd.players := List.mem_iff_getElem?.mpr ⟨j, hq0⟩
        rw [hres] at hid
        have hid2 : id ∈ gd.eliminationOrder ++ [p.socketId] := hid
        rcases List.mem_append.mp hid2 with hcase | hcase
        · rw [eliminated_of_key hkq]
          exact hordElim id hcase q0 hq0mem hqid0
        · exfalso
          have hidp : id = p.socketId := by simpa using hcase
          apply hij
          have h1 : (gd.players.map PlayerBall.socketId)[i]? = some p.socketId := by
            rw [List.getElem?_map, hp]
            rfl
          have h2 : (gd.players.map PlayerBall.socketId)[j]? = some p.socketId := by
            rw [List.getElem?_map, hq0]
            show some q0.socketId = some p.socketId
            rw [hqid0, hidp]
          exact List.getElem?_inj (by rw [List.length_map]; exact hilt) hnd (by rw [h1, h2])
  · rw [hres]
    show (gd.alivePlayers.filter (fun id => id != p.socketId)).length + 1
      = gd.alivePlayers.length
    rw [hal]
    exact length_filter_ne (aliveIds_nodup hnd) hpid_alive
  · rw [hres]

/-- Transfer of eliminated-status along the key map of a set update whose new
entry is eliminated. -/
theorem mono_of_key_set {ps2 ps1 : List PlayerBall} {i : ℕ} {p2 : PlayerBall}
    (hkey : ps2.map playerKey = (ps1.set i p2).map playerKey)
    (helim2 : p2.isEliminated = true)
    {j : ℕ} {q2 : PlayerBall} (hq2 : ps1[j]? = some q2) (he : q2.isEliminated = true) :
    ∃ q3, ps2[j]? = some q3 ∧ q3.isEliminated = true := by
  have hkj : (ps2[j]?).map playerKey = ((ps1.set i p2)[j]?).map playerKey := by
    rw [← List.getElem?_map, ← List.getElem?_map, hkey]
  by_cases hij : i = j
  · subst hij
    have hilt : i < ps1.length := (List.getElem?_eq_some.mp hq2).1
    rw [List.getElem?_set, if_pos rfl, if_pos hilt] at hkj
    cases h3 : ps2[i]? with
    | none =>
      rw [h3] at hkj
      simp at hkj
    | some q3 =>
      rw [h3] at hkj
      refine ⟨q3, rfl, ?_⟩
      rw [eliminated_of_key (Option.some.inj hkj), helim2]
  · rw [List.getElem?_set, if_neg hij, hq2] at hkj
    cases h3 : ps2[j]? with
    | none =>
      rw [h3] at hkj
      simp at hkj
    | some q3 =>
      rw [h3] at hkj
      refine ⟨q3, rfl, ?_⟩
      rw [eliminated_of_key (Option.some.inj hkj), he]

theorem checkElimStep_inv (sq : ℚ → ℚ) (now : ℚ) (gd : BumperBallsGameData)
    (st : BumperBallsGameData × List GameEvent) (i : ℕ)
    (h : ElimInv gd st) : ElimInv gd (checkElimStep sq now st i) := by
  obtain ⟨hwf, hids, hmono, newIds, hord, hlen, hev⟩ := h
  unfold checkElimStep
  cases hp : st.1.players[i]? with
  | none => exact ⟨hwf, hids, hmono, newIds, hord, hlen, hev⟩
  | some player =>
    dsimp only
    have helimBranch : player.isEliminated = false →
        ElimInv gd ((eliminatePlayer now i st.1).1,
          st.2 ++ (eliminatePlayer now i st.1).2) := by
      intro halive
      obtain ⟨hwf2, hkey2, hids2, hord2, hlen2, hev2⟩ :=
        eliminatePlayer_spec now i st.1 hwf hp halive
      refine ⟨hwf2, by rw [hids2, hids], ?_,
        newIds ++ [player.socketId], ?_, ?_, ?_⟩
      · intro j q hq he
        obtain ⟨q2, hq2, he2⟩ := hmono j q hq he
        exact mono_of_key_set hkey2 rfl hq2 he2
      · dsimp only
        rw [hord2, hord, List.append_assoc]
      · dsimp only
        rw [List.length_append, List.length_singleton]
        omega
      · dsimp only
        rw [List.length_append, hev2, List.length_singleton, List.length_append, hev]
        rfl
    split_ifs with helim hdist hfall
    · exact ⟨hwf, hids, hmono, newIds, hord, hlen, hev⟩
    · exact helimBranch (by simp_all)
    · exact helimBranch (by simp_all)
    · exact ⟨hwf, hids, hmono, newIds, hord, hlen, hev⟩

theorem checkElim_fold_inv (sq : ℚ → ℚ) (now : ℚ) (gd : BumperBallsGameData)
    (l : List ℕ) (st : BumperBallsGameData × List GameEvent)
    (h : ElimInv gd st) : ElimInv gd (l.foldl (checkElimStep sq now) st) := by
  induction l generalizing st with
  | nil => exact h
  | cons a t ih => exact ih _ (checkElimStep_inv sq now gd st a h)

/-- C3: from a well-formed session state, one checkEliminations pass keeps
the state well-formed (in particular alivePlayers stays exactly the ids of
the non-eliminated players and eliminationOrder stays duplicate-free),
preserves the roster ids, never reverts isEliminated, appends the newly
eliminated ids to eliminationOrder with alivePlayers shrinking by exactly
one per appended id (one per emitted elimination event), and never grows
alivePlayers. -/
theorem elimination_invariants (sq : ℚ → ℚ) (now : ℚ) (gd : BumperBallsGameData)
    (hwf : WF gd) :
    WF (checkEliminations sq now gd).1
    ∧ (checkEliminations sq now gd).1.players.map PlayerBall.socketId
        = gd.players.map PlayerBall.socketId
    ∧ (∀ (j : ℕ) (q : PlayerBall), gd.players[j]? = some q → q.isEliminated = true →
        ∃ q2 : PlayerBall, (checkEliminations sq now gd).1.players[j]? = some q2
          ∧ q2.isEliminated = true)
    ∧ (∃ newIds : List String,
        (checkEliminations sq now gd).1.eliminationOrder = gd.eliminationOrder ++ newIds
        ∧ (checkEliminations sq now gd).1.alivePlayers.length + newIds.length
            = gd.alivePlayers.length
        ∧ (checkEliminations sq now gd).2.length = newIds.length)
    ∧ (checkEliminations sq now gd).1.alivePlayers.length ≤ gd.alivePlayers.length
    ∧ (checkEliminations sq now gd).1.eliminationOrder.Nodup
    ∧ (checkEliminations sq now gd).1.alivePlayers
        = aliveIds (checkEliminations sq now gd).1.players := by
  have key : ElimInv gd (checkEliminations sq now gd) := by
    unfold checkEliminations
    exact checkElim_fold_inv sq now gd _ (gd, [])
      ⟨hwf, rfl, fun j q hq he => ⟨q, hq, he⟩, [], by simp, by simp, rfl⟩
  obtain ⟨hwf2, hids, hmono, newIds, hord, hlen, hev⟩ := key
  exact ⟨hwf2, hids, hmono, ⟨newIds, hord, hlen, hev⟩, by omega,
    hwf2.2.2.1, hwf2.2.1⟩

theorem gdRunning_WF : WF gdRunning := by
  refine ⟨by decide, by decide, by decide, ?_⟩
  intro id hid
  simp [gdRunning] at hid

/-- Witness for C3 at a concrete well-formed two-player session. -/
theorem elimination_invariants_witness :
    WF (checkEliminations ratSqrt 0 gdRunning).1
      ∧ (checkEliminations ratSqrt 0 gdRunning).1.alivePlayers.length
          ≤ gdRunning.alivePlayers.length :=
  ⟨(elimination_invariants ratSqrt 0 gdRunning gdRunning_WF).1,
    (elimination_invariants ratSqrt 0 gdRunning gdRunning_WF).2.2.2.2.1⟩
